import Mathlib

/-!
Shallow embedding of the animation core of the hypatia repository
(hypatia/animations.py) together with theorems settling the stated
properties of its specification.

Conventions of the embedding:
* Python integers are Int; every pixel coordinate and every time value
  reaching the modelled code paths is integer valued, so the float typed
  position attributes are modelled with Int, on which IEEE addition and
  subtraction of such values are exact. The frame durations produced by
  frames_from_gif are divided by 1000.0 in the source, so those fields
  are rationals.
* Fallible Python code is modelled with Except PyErr; the PyErr
  constructor names the exception class the interpreter would raise at
  the corresponding statement.
* Mutable attribute state is passed explicitly: each method becomes a
  function of the attribute record it reads, returning the updated
  record or the raised error. The methods modelled here assign no
  attribute of any other object except where noted, so state that a
  function does not return is unchanged by construction.
-/

namespace Hypatia

/-- Python exceptions raised by the embedded code paths of
hypatia/animations.py. Each constructor names the exception class the
Python interpreter would raise at the corresponding statement;
badWalkabout is the module exception class BadWalkabout. -/
inductive PyErr where
  | keyError
  | indexError
  | typeError
  | attributeError
  | valueError
  | unboundLocalError
  | badWalkabout
deriving DecidableEq, Repr

/-- Python list subscription xs[i]: a nonnegative index is direct, a
negative index counts from the end, and any index out of range gives
Option.none, the IndexError case. -/
def pyListGet {α : Type} (xs : List α) (i : Int) : Option α :=
  if 0 ≤ i then xs.get? i.toNat
  else if 0 ≤ i + (xs.length : Int) then xs.get? (i + (xs.length : Int)).toNat
  else Option.none

/-- Embeds class AnchorPoint (animations.py lines 202 to 274): a
coordinate on a surface used for pinning one surface to another. -/
structure AnchorPoint where
  x : Int
  y : Int
deriving DecidableEq, Repr

/-- Embeds AnchorPoint.__add__ (lines 232 to 251): componentwise sum,
returned as a plain tuple. -/
def AnchorPoint.add (a b : AnchorPoint) : Int × Int :=
  (a.x + b.x, a.y + b.y)

/-- Embeds AnchorPoint.__sub__ (lines 253 to 274): componentwise
difference, returned as a plain tuple. -/
def AnchorPoint.sub (a b : AnchorPoint) : Int × Int :=
  (a.x - b.x, a.y - b.y)

/-- Embeds class AnimAnchors (lines 77 to 199): anchor_points is the
dict from group label to the per frame anchor list, anchor_groups the
list of labels. The dict is modelled as an association list in
insertion order. -/
structure AnimAnchors where
  anchor_points : List (String × List AnchorPoint)
  anchor_groups : List String
deriving DecidableEq, Repr

/-- Embeds AnimAnchors.get_anchor_point (lines 169 to 199): the method
returns anchor_points[group][frame_index], and an IndexError falls back
to anchor_points[group][-1]. A missing group is a KeyError, which the
except clause does not catch; an empty group list makes the fallback
itself raise IndexError. The method assigns nothing, so the embedding
is a pure function and a failed lookup leaves the table unchanged by
construction. -/
def AnimAnchors.get_anchor_point (a : AnimAnchors) (anchor_point_group : String)
    (frame_index : Int) : Except PyErr AnchorPoint :=
  match a.anchor_points.lookup anchor_point_group with
  | Option.none => Except.error PyErr.keyError
  | Option.some pts =>
    match pyListGet pts frame_index with
    | Option.some p => Except.ok p
    | Option.none =>
      match pyListGet pts (-1) with
      | Option.some p => Except.ok p
      | Option.none => Except.error PyErr.indexError

/-- Embeds class AnimatedSpriteFrame (lines 277 to 299). The durations
frames_from_gif passes in are milliseconds divided by 1000.0, so the
time fields are rationals; the surface is an opaque handle. -/
structure AnimatedSpriteFrame where
  surface : Nat
  duration : Rat
  start_time : Rat
  end_time : Rat
deriving DecidableEq, Repr

/-- Embeds AnimatedSpriteFrame.__init__ (lines 286 to 299): end_time is
derived as start_time + duration. -/
def AnimatedSpriteFrame.create (surface : Nat) (start_time duration : Rat) :
    AnimatedSpriteFrame :=
  { surface := surface, duration := duration, start_time := start_time,
    end_time := start_time + duration }

/-- Attribute record for class AnimatedSprite as its update method
reads it (lines 304 to 368). The real constructor is itself broken (it
calls the nonexistent frames_from_pil_gif), so the record captures the
attributes the method body references. -/
structure AnimatedSprite where
  surfaces : List Nat
  frames : List AnimatedSpriteFrame
  total_duration : Rat
deriving DecidableEq, Repr

/-- Embeds AnimatedSprite.update (lines 358 to 368) literally. When
more than one surface exists, the first statement executed is
animation_time += elapsed_timedelta: animation_time is assigned within
the body, hence a local, and is read here before any assignment, so
every execution of this branch raises UnboundLocalError. The names
elapsed_timedelta, elapsed_time, total_duration (bare), and
current_frame_index are equally unbound, and none of the wrap or scan
logic quoted from the docstring is ever reached. With at most one
surface the body does nothing. The method takes no elapsed time
argument at all. -/
def AnimatedSprite.update (s : AnimatedSprite) : Except PyErr AnimatedSprite :=
  if 1 < s.surfaces.length then Except.error PyErr.unboundLocalError
  else Except.ok s

/-- Embeds the static method AnimatedSprite.frames_from_gif (lines 395
to 434) over the decoded GIF, given as the ordered list of (surface,
duration in milliseconds) pairs, one per frame; an openable GIF always
has at least one frame. The first loop iteration computes
duration = info divided by 1000.0, builds the frame starting at
time_position = 0, appends it, and then executes the misspelled
accumulator statement time_posiiton += duration: the misspelled name is
assigned there, hence a local, and is read before any assignment, so
the loop raises UnboundLocalError while processing the very first frame
and the function never returns a frame list. -/
def AnimatedSprite.frames_from_gif (gif_frames : List (Nat × Int)) :
    Except PyErr (List AnimatedSpriteFrame) :=
  match gif_frames with
  | [] => Except.ok []
  | (surface, duration_ms) :: _ =>
    let frame := AnimatedSpriteFrame.create surface 0 ((duration_ms : Rat) / 1000)
    let _frames := [frame]
    Except.error PyErr.unboundLocalError

/-- Modelled from the spec: hypatia/constants.py is not under src. The
Action enum per section 3 of the spec, matching the uses in
animations.py and player.py. -/
inductive Action where
  | stand
  | walk
deriving DecidableEq, Repr

/-- Modelled from the spec: hypatia/constants.py is not under src. The
Direction enum per section 3 of the spec, matching the uses in
animations.py and player.py. -/
inductive Direction where
  | north
  | south
  | east
  | west
deriving DecidableEq, Repr

/-- Models getattr(constants.Action, name) at line 645: Option.none is
the AttributeError case. -/
def Action.fromName : String → Option Action
  | "stand" => Option.some Action.stand
  | "walk" => Option.some Action.walk
  | _ => Option.none

/-- Models getattr(constants.Direction, name) at line 644: Option.none
is the AttributeError case. -/
def Direction.fromName : String → Option Direction
  | "north" => Option.some Direction.north
  | "south" => Option.some Direction.south
  | "east" => Option.some Direction.east
  | "west" => Option.some Direction.west
  | _ => Option.none

/-- Models the pyganim.PygAnimation objects stored in
Walkabout.animations as Walkabout.blit consumes them: a distinguishing
id, the _startTimes list (one entry per frame plus the final total
duration) and the elapsed playback time consulted at draw time. pyganim
is an external dependency of the repository. -/
structure PygAnimation where
  gid : Nat
  startTimes : List Int
  elapsed : Int
deriving DecidableEq, Repr

/-- Models pyganim.findStartTime from the external pyganim dependency:
the index of the highest start time not exceeding the target, clamped
so that the final startTimes entry (the total duration) is never
selected. -/
def findStartTime (startTimes : List Int) (target : Int) : Nat :=
  min ((startTimes.filter (fun t => decide (t ≤ target))).length - 1)
    (startTimes.length - 2)

/-- Python dict assignment d[k] = v on an insertion ordered dict
modelled as an association list: overwrite in place, or append when the
key is new. -/
def dictSet {α β : Type} [DecidableEq α] (d : List (α × β)) (k : α) (v : β) :
    List (α × β) :=
  match d with
  | [] => [(k, v)]
  | (k0, v0) :: rest =>
    if k0 = k then (k, v) :: rest else (k0, v0) :: dictSet rest k v

/-- Lookup d[outer][inner] on the nested action and direction dicts:
Option.none is the KeyError case of either level. -/
def nestedLookup {β : Type} (d : List (Action × List (Direction × β)))
    (a : Action) (dir : Direction) : Option β :=
  match d.lookup a with
  | Option.none => Option.none
  | Option.some inner => inner.lookup dir

/-- Net effect of the idiom try: d[a][dir] = v except KeyError:
d[a] = {dir: v} used throughout animations.py: insert at the nested
key, creating the inner dict when the outer key is new. -/
def nestedSet {β : Type} (d : List (Action × List (Direction × β)))
    (a : Action) (dir : Direction) (v : β) :
    List (Action × List (Direction × β)) :=
  match d.lookup a with
  | Option.none => d ++ [(a, [(dir, v)])]
  | Option.some inner => dictSet d a (dictSet inner dir v)

/-- State of the Walkabout.animation_anchors attribute. The Walkabout
constructor never assigns it (it assigns self.anchors instead, line
581), so a fresh object is in the unset state and reading the attribute
raises AttributeError; update_animations later stores either None or
the nested anchor dict. -/
inductive AnchorsAttr where
  | unset
  | pyNone
  | table (t : List (Action × List (Direction × AnimAnchors)))
deriving DecidableEq, Repr

/-- Attribute record of a child Walkabout as the parent blit reads it
(lines 774 to 784): the child animations, anchor attribute, and the
own action and direction state of the child. Grandchildren are never
touched by blit, so one level of children suffices. -/
structure ChildWalkabout where
  topleft_float : Int × Int
  animations : List (Action × List (Direction × PygAnimation))
  animation_anchors : AnchorsAttr
  action : Action
  direction : Direction
deriving DecidableEq, Repr

/-- Attribute record for class Walkabout (lines 535 to 815). blit reads
self.child_walkabouts, the attribute name used at lines 774 and 814
(the constructor assigns self.children instead; the record follows the
name the modelled methods read). -/
structure Walkabout where
  topleft_float : Int × Int
  animations : List (Action × List (Direction × PygAnimation))
  animation_anchors : AnchorsAttr
  action : Action
  direction : Direction
  child_walkabouts : List ChildWalkabout
deriving DecidableEq, Repr

/-- Embeds Walkabout.current_animation (lines 672 to 687):
self.animations[self.action][self.direction], a KeyError when either
level misses. There is no query time remapping of any pair. -/
def Walkabout.current_animation (w : Walkabout) : Except PyErr PygAnimation :=
  match nestedLookup w.animations w.action w.direction with
  | Option.some an => Except.ok an
  | Option.none => Except.error PyErr.keyError

/-- The same lookup for a child Walkabout, as child.current_animation()
at line 783. -/
def ChildWalkabout.current_animation (c : ChildWalkabout) :
    Except PyErr PygAnimation :=
  match nestedLookup c.animations c.action c.direction with
  | Option.some an => Except.ok an
  | Option.none => Except.error PyErr.keyError

/-- Subscription child.animation_anchors[action][direction] at lines
776 to 778: AttributeError when the attribute was never assigned,
TypeError when it holds None, KeyError when the nested key misses. -/
def anchorsSubscript (attr : AnchorsAttr) (a : Action) (d : Direction) :
    Except PyErr AnimAnchors :=
  match attr with
  | AnchorsAttr.unset => Except.error PyErr.attributeError
  | AnchorsAttr.pyNone => Except.error PyErr.typeError
  | AnchorsAttr.table t =>
    match nestedLookup t a d with
    | Option.some aa => Except.ok aa
    | Option.none => Except.error PyErr.keyError

/-- Observable outcome of Walkabout.blit: the screen position the
parent animation is drawn at, and the screen positions the child
animations are drawn at, in child order. blit writes no position
attribute of any child, so every stored position is unchanged by
construction. -/
structure BlitOutcome where
  selfDraw : Int × Int
  childDraws : List (Int × Int)
deriving DecidableEq, Repr

/-- Embeds the child loop of Walkabout.blit (lines 774 to 784). For
each child the code subscripts the child anchor table by the PARENT
action and direction, looks the head_anchor up at the PARENT pyganim
frame index, and draws the child animation at
parent_anchor - child_frame_anchor. The elapsed time of the child
animation is never consulted. -/
def blitChildren (children : List ChildWalkabout) (parentAction : Action)
    (parentDirection : Direction) (pyganim_frame_index : Nat)
    (parent_anchor : AnchorPoint) : Except PyErr (List (Int × Int)) :=
  match children with
  | [] => Except.ok []
  | child :: rest =>
    match anchorsSubscript child.animation_anchors parentAction parentDirection with
    | Except.error e => Except.error e
    | Except.ok child_anim_anchor =>
      match child_anim_anchor.get_anchor_point "head_anchor"
          (pyganim_frame_index : Int) with
      | Except.error e => Except.error e
      | Except.ok child_frame_anchor =>
        let child_position := AnchorPoint.sub parent_anchor child_frame_anchor
        match child.current_animation with
        | Except.error e => Except.error e
        | Except.ok _child_anim =>
          match blitChildren rest parentAction parentDirection
              pyganim_frame_index parent_anchor with
          | Except.error e => Except.error e
          | Except.ok others => Except.ok (child_position :: others)

/-- Embeds Walkabout.blit (lines 736 to 784). The screen draw position
is topleft_float minus the viewport offset; the active animation is
resolved with current_animation; when self.animation_anchors is None
the method returns before any child work; otherwise the pyganim frame
index of the PARENT animation is computed from its start times and
elapsed time, the parent head_anchor is looked up at that index under
the parent action and direction, and every child is drawn by
blitChildren. Reading animation_anchors on a fresh object raises
AttributeError since the constructor never assigns that attribute. -/
def Walkabout.blit (w : Walkabout) (offset : Int × Int) :
    Except PyErr BlitOutcome :=
  let x := w.topleft_float.1 - offset.1
  let y := w.topleft_float.2 - offset.2
  let position_on_screen := (x, y)
  match Walkabout.current_animation w with
  | Except.error e => Except.error e
  | Except.ok pyganim_gif =>
    match w.animation_anchors with
    | AnchorsAttr.unset => Except.error PyErr.attributeError
    | AnchorsAttr.pyNone =>
      Except.ok { selfDraw := position_on_screen, childDraws := [] }
    | AnchorsAttr.table anchor_table =>
      let pyganim_frame_index :=
        findStartTime pyganim_gif.startTimes pyganim_gif.elapsed
      match nestedLookup anchor_table w.action w.direction with
      | Option.none => Except.error PyErr.keyError
      | Option.some animation_anchors =>
        match animation_anchors.get_anchor_point "head_anchor"
            (pyganim_frame_index : Int) with
        | Except.error e => Except.error e
        | Except.ok frame_anchor =>
          let parent_anchor : AnchorPoint :=
            { x := position_on_screen.1 + frame_anchor.x,
              y := position_on_screen.2 + frame_anchor.y }
          match blitChildren w.child_walkabouts w.action w.direction
              pyganim_frame_index parent_anchor with
          | Except.error e => Except.error e
          | Except.ok draws =>
            Except.ok { selfDraw := position_on_screen, childDraws := draws }

/-- One .gif entry of the walkabout resource bundle: the base file name
(what remains after os.path.split and os.path.splitext at lines 635 to
636), the animation loaded from the file, and the parsed AnimAnchors of
the like named .ini sidecar when the resource contains one. -/
structure SpriteFile where
  baseName : String
  animation : PygAnimation
  iniAnchors : Option AnimAnchors
deriving DecidableEq, Repr

/-- Characters before and after the first underscore of a list, or
Option.none when no underscore occurs. -/
def splitCharsAtUnderscore : List Char → Option (List Char × List Char)
  | [] => Option.none
  | c :: rest =>
    if c = '_' then Option.some ([], rest)
    else
      match splitCharsAtUnderscore rest with
      | Option.none => Option.none
      | Option.some (pre, post) => Option.some (c :: pre, post)

/-- Python name.split with the underscore separator and maxsplit 1: the
part before the first underscore and all of the rest; Option.none when
no underscore occurs, in which case the two target unpacking at line
643 raises ValueError. -/
def splitActionDirection (name : String) : Option (String × String) :=
  match splitCharsAtUnderscore name.toList with
  | Option.none => Option.none
  | Option.some (pre, post) => Option.some (String.mk pre, String.mk post)

/-- Embeds the file name decomposition of Walkabout.update_animations
(lines 638 to 645): the reserved name only maps to (stand, south);
otherwise the name splits at the first underscore, the direction is
resolved first via getattr on constants.Direction, then the action, an
unknown name raising AttributeError. -/
def decodeBaseName (file_name : String) : Except PyErr (Action × Direction) :=
  if file_name = "only" then Except.ok (Action.stand, Direction.south)
  else
    match splitActionDirection file_name with
    | Option.none => Except.error PyErr.valueError
    | Option.some (actionName, directionName) =>
      match Direction.fromName directionName with
      | Option.none => Except.error PyErr.attributeError
      | Option.some dir =>
        match Action.fromName actionName with
        | Option.none => Except.error PyErr.attributeError
        | Option.some act => Except.ok (act, dir)

/-- Embeds one iteration of the update_animations loop (lines 634 to
670) on one sprite file: decompose the name, store the animation at the
nested (action, direction) key, then handle the anchor sidecar. When
the .ini exists, subscripting self.animation_anchors raises
AttributeError if the attribute is unset and TypeError if it holds
None, else the parsed anchors are stored at the nested key; when no
.ini exists, the whole attribute is assigned None (line 670),
discarding whatever table it held. -/
def Walkabout.processSpriteFile (w : Walkabout) (f : SpriteFile) :
    Except PyErr Walkabout :=
  match decodeBaseName f.baseName with
  | Except.error e => Except.error e
  | Except.ok (action, direction) =>
    let anims := nestedSet w.animations action direction f.animation
    match f.iniAnchors with
    | Option.some anim_anchors =>
      match w.animation_anchors with
      | AnchorsAttr.unset => Except.error PyErr.attributeError
      | AnchorsAttr.pyNone => Except.error PyErr.typeError
      | AnchorsAttr.table t =>
        Except.ok { w with
          animations := anims,
          animation_anchors :=
            AnchorsAttr.table (nestedSet t action direction anim_anchors) }
    | Option.none =>
      Except.ok { w with animations := anims,
                         animation_anchors := AnchorsAttr.pyNone }

/-- The update_animations loop over the bundle files in resource
iteration order. -/
def Walkabout.processFiles (w : Walkabout) :
    List SpriteFile → Except PyErr Walkabout
  | [] => Except.ok w
  | f :: rest =>
    match Walkabout.processSpriteFile w f with
    | Except.error e => Except.error e
    | Except.ok w2 => Walkabout.processFiles w2 rest

/-- Embeds Walkabout.update_animations (lines 621 to 670): the bundle
is the list of .gif files of the resource with their optional sidecars;
an empty bundle raises BadWalkabout, otherwise the files are processed
in iteration order. -/
def Walkabout.update_animations (w : Walkabout) (sprite_files : List SpriteFile) :
    Except PyErr Walkabout :=
  if sprite_files.isEmpty then Except.error PyErr.badWalkabout
  else Walkabout.processFiles w sprite_files

/-- The anchor list of the AnimAnchors docstring example: head_anchor
at (0,2), (1,3), (2,2) for frames 0, 1, 2. -/
def anchorPts0 : List AnchorPoint := [⟨0, 2⟩, ⟨1, 3⟩, ⟨2, 2⟩]

/-- The AnimAnchors of the docstring INI example. -/
def anchors0 : AnimAnchors := ⟨[("head_anchor", anchorPts0)], ["head_anchor"]⟩

/-- A two frame sprite state: two surfaces, 100 ms frames. -/
def sprite2 : AnimatedSprite :=
  { surfaces := [0, 1],
    frames := [AnimatedSpriteFrame.create 0 0 (1 / 10),
               AnimatedSpriteFrame.create 1 (1 / 10) (1 / 10)],
    total_duration := 1 / 5 }

/-- A three frame sprite state used for the large delta safety check. -/
def sprite3 : AnimatedSprite :=
  { surfaces := [0, 1, 2],
    frames := [AnimatedSpriteFrame.create 0 0 (1 / 10),
               AnimatedSpriteFrame.create 1 (1 / 10) (1 / 10),
               AnimatedSpriteFrame.create 2 (1 / 5) (1 / 10)],
    total_duration := 3 / 10 }

/-- Parent animation for the composition scenario: two 100 ms frames,
elapsed 150, hence on frame index 1. -/
def c1ParentAnim : PygAnimation := ⟨0, [0, 100, 200], 150⟩

/-- Child animation for the composition scenario: two 100 ms frames,
elapsed 50, hence on its own frame index 0. -/
def c1ChildAnim : PygAnimation := ⟨1, [0, 100, 200], 50⟩

/-- Parent head_anchor per frame: (0,0) on frame 0, (5,5) on frame 1. -/
def c1ParentAnchors : AnimAnchors :=
  ⟨[("head_anchor", [⟨0, 0⟩, ⟨5, 5⟩])], ["head_anchor"]⟩

/-- Child head_anchor per frame: (1,1) on frame 0, (9,9) on frame 1. -/
def c1ChildAnchors : AnimAnchors :=
  ⟨[("head_anchor", [⟨1, 1⟩, ⟨9, 9⟩])], ["head_anchor"]⟩

/-- The child of the composition scenario, on its own frame 0. -/
def c1Child : ChildWalkabout :=
  { topleft_float := (0, 0),
    animations := [(Action.stand, [(Direction.south, c1ChildAnim)])],
    animation_anchors :=
      AnchorsAttr.table [(Action.stand, [(Direction.south, c1ChildAnchors)])],
    action := Action.stand,
    direction := Direction.south }

/-- The parent of the composition scenario, at (10,10) on frame 1, with
one child. -/
def c1Parent : Walkabout :=
  { topleft_float := (10, 10),
    animations := [(Action.stand, [(Direction.south, c1ParentAnim)])],
    animation_anchors :=
      AnchorsAttr.table [(Action.stand, [(Direction.south, c1ParentAnchors)])],
    action := Action.stand,
    direction := Direction.south,
    child_walkabouts := [c1Child] }

/-- The single animation of the degenerate only.gif bundle. -/
def onlyAnim : PygAnimation := ⟨7, [0, 100], 0⟩

/-- A freshly constructed Walkabout before update_animations:
self.animations is the empty dict (line 580) and animation_anchors was
never assigned; action and direction default to stand and south. -/
def freshWalkabout : Walkabout :=
  { topleft_float := (0, 0),
    animations := [],
    animation_anchors := AnchorsAttr.unset,
    action := Action.stand,
    direction := Direction.south,
    child_walkabouts := [] }

/-- The only.gif bundle entry: no .ini sidecar. -/
def onlyFile : SpriteFile := ⟨"only", onlyAnim, Option.none⟩

/-- The Walkabout state produced by loading the degenerate bundle
consisting only of only.gif carrying the given animation: the single
entry sits at (stand, south) and the anchor attribute is None. -/
def onlyLoaded (an : PygAnimation) : Walkabout :=
  { topleft_float := (0, 0),
    animations := [(Action.stand, [(Direction.south, an)])],
    animation_anchors := AnchorsAttr.pyNone,
    action := Action.stand,
    direction := Direction.south,
    child_walkabouts := [] }

/-- Animation for the no-anchor draw scenario. -/
def c7Anim : PygAnimation := ⟨3, [0, 100], 0⟩

/-- A one frame anchor table for the no-anchor draw scenario. -/
def c7Anchors : AnimAnchors := ⟨[("head_anchor", [⟨2, 2⟩])], ["head_anchor"]⟩

/-- A child for the no-anchor draw scenario. -/
def c7Child : ChildWalkabout :=
  { topleft_float := (4, 4),
    animations := [(Action.stand, [(Direction.south, c7Anim)])],
    animation_anchors :=
      AnchorsAttr.table [(Action.stand, [(Direction.south, c7Anchors)])],
    action := Action.stand,
    direction := Direction.south }

/-- An anchor table that has an entry only for (walk, north): anchor
data for the active (stand, south) animation is absent although the
attribute is not None. -/
def c7Table : List (Action × List (Direction × AnimAnchors)) :=
  [(Action.walk, [(Direction.north, c7Anchors)])]

/-- A Walkabout whose anchor attribute holds c7Table while the active
pair is (stand, south). -/
def c7MissingPairState : Walkabout :=
  { topleft_float := (0, 0),
    animations := [(Action.stand, [(Direction.south, c7Anim)])],
    animation_anchors := AnchorsAttr.table c7Table,
    action := Action.stand,
    direction := Direction.south,
    child_walkabouts := [c7Child] }

/-- The same Walkabout with the attribute set to None, the only form of
absence blit skips on. -/
def c7NoneState : Walkabout :=
  { c7MissingPairState with animation_anchors := AnchorsAttr.pyNone }

/-- A sidecar anchor table for the loading order scenario. -/
def c9Anchors : AnimAnchors := ⟨[("head_anchor", [⟨0, 2⟩])], ["head_anchor"]⟩

/-- Animation of the sidecar bearing file of the loading order
scenario. -/
def c9AnimA : PygAnimation := ⟨21, [0, 100], 0⟩

/-- Animation of the sidecar free file of the loading order scenario. -/
def c9AnimB : PygAnimation := ⟨22, [0, 100], 0⟩

/-- walk_north.gif with a walk_north.ini sidecar. -/
def c9FileWithIni : SpriteFile := ⟨"walk_north", c9AnimA, Option.some c9Anchors⟩

/-- stand_south.gif with no sidecar. -/
def c9FileNoIni : SpriteFile := ⟨"stand_south", c9AnimB, Option.none⟩

/-- Initial state for the loading order scenario, with the anchor
attribute pre-initialized to an empty table: the only attribute state
from which a parsed sidecar can be stored at all, and hence the state
needed to observe a stored table being discarded. -/
def c9Init : Walkabout :=
  { topleft_float := (0, 0),
    animations := [],
    animation_anchors := AnchorsAttr.table [],
    action := Action.stand,
    direction := Direction.south,
    child_walkabouts := [] }

/-- Final state after processing walk_north (with sidecar) and then
stand_south (without): the parsed walk_north anchors were discarded by
the whole-attribute None assignment. -/
def c9AfterAB : Walkabout :=
  { c9Init with
      animations := [(Action.walk, [(Direction.north, c9AnimA)]),
                     (Action.stand, [(Direction.south, c9AnimB)])],
      animation_anchors := AnchorsAttr.pyNone }

/-- Nonnegative Python index is plain indexing. -/
theorem pyListGet_nonneg {α : Type} (xs : List α) (i : Int) (h : 0 ≤ i) :
    pyListGet xs i = xs.get? i.toNat := by
  unfold pyListGet
  rw [if_pos h]

/-- A negative Python index that stays within range counts from the
end. -/
theorem pyListGet_neg_in {α : Type} (xs : List α) (i : Int) (h1 : i < 0)
    (h2 : 0 ≤ i + (xs.length : Int)) :
    pyListGet xs i = xs.get? (i + (xs.length : Int)).toNat := by
  unfold pyListGet
  rw [if_neg (by omega), if_pos h2]

/-- A negative Python index below minus the length is out of range. -/
theorem pyListGet_neg_out {α : Type} (xs : List α) (i : Int) (h1 : i < 0)
    (h2 : i + (xs.length : Int) < 0) : pyListGet xs i = Option.none := by
  unfold pyListGet
  rw [if_neg (by omega), if_neg (by omega)]

/-- Python xs[-1] on a nonempty list is the last element. -/
theorem pyListGet_neg_one {α : Type} (xs : List α) (hne : xs ≠ []) :
    pyListGet xs (-1) = xs.get? (xs.length - 1) := by
  have hlen : 0 < xs.length := List.length_pos.mpr hne
  unfold pyListGet
  rw [if_neg (by omega), if_pos (by omega)]
  congr 1
  omega

/-- A key matching no pair of an association list is not found. -/
theorem lookup_eq_none_of_keys_ne {β : Type} (l : List (String × β)) (g : String)
    (h : ∀ pr ∈ l, pr.1 ≠ g) : l.lookup g = Option.none := by
  induction l with
  | nil => rfl
  | cons hd tl ih =>
    obtain ⟨k, v⟩ := hd
    have hk : k ≠ g := h (k, v) (List.mem_cons_self _ _)
    have hbeq : (g == k) = false := beq_eq_false_iff_ne.mpr (fun e => hk e.symm)
    simp only [List.lookup, hbeq]
    exact ih (fun pr hm => h pr (List.mem_cons_of_mem _ hm))

/-- Claim C2 (code_bug evidence). The claim says an advance reaching or
exceeding total_duration reduces the elapsed time modulo total_duration
and resets the active frame index to 0. The code cannot do this: at the
failing input, a two frame sprite, AnimatedSprite.update raises
UnboundLocalError at its first statement, which reads the never
assigned locals animation_time and elapsed_timedelta, and it takes no
elapsed time argument at all; the wrap of the reference implementation
quoted in its own docstring is unreachable. -/
theorem C2_update_raises_unbound_local :
    AnimatedSprite.update sprite2 = Except.error PyErr.unboundLocalError := rfl

/-- Claim C3 (code_bug evidence). The claim says the frames built from
a GIF tile the interval from 0 to total_duration contiguously. At the
failing input, a three frame GIF with durations 100, 150 and 200
milliseconds, AnimatedSprite.frames_from_gif raises UnboundLocalError
at the misspelled accumulator statement while processing the first
frame and never returns any frame list, so no such partition is ever
produced. -/
theorem C3_frames_from_gif_raises :
    AnimatedSprite.frames_from_gif [(0, 100), (1, 150), (2, 200)] =
      Except.error PyErr.unboundLocalError := rfl

/-- Claim C8 (code_bug evidence). The claim says that after any
advance the active frame index stays within bounds, clamped to the
last valid index. At the failing input, a three frame sprite,
AnimatedSprite.update raises UnboundLocalError before any frame scan;
the scan that follows in the source also increments current_frame while
indexing frames by current_frame_index and contains no clamp, so the
code provides no bounds guarantee at all. -/
theorem C8_update_raises_before_any_scan :
    AnimatedSprite.update sprite3 = Except.error PyErr.unboundLocalError := rfl

/-- Claim C4 (confirmed). For an anchor group present with a nonempty
coordinate list, a frame index at or beyond the length returns the last
stored coordinate, the one at index length minus one, without error,
and agrees with the lookup at index length minus one; a frame index
within range returns exactly the stored coordinate. -/
theorem C4_anchor_extrapolation (a : AnimAnchors) (g : String)
    (pts : List AnchorPoint) (hg : a.anchor_points.lookup g = Option.some pts)
    (hne : pts ≠ []) (i : Int) :
    ((pts.length : Int) ≤ i →
      ∃ p, pts.get? (pts.length - 1) = Option.some p
        ∧ a.get_anchor_point g i = Except.ok p
        ∧ a.get_anchor_point g i = a.get_anchor_point g ((pts.length : Int) - 1))
    ∧ (0 ≤ i → i < (pts.length : Int) →
      ∃ p, pts.get? i.toNat = Option.some p
        ∧ a.get_anchor_point g i = Except.ok p) := by
  have hlen : 0 < pts.length := List.length_pos.mpr hne
  constructor
  · intro hge
    have h0 : 0 ≤ i := by omega
    have hnone : pyListGet pts i = Option.none := by
      rw [pyListGet_nonneg pts i h0]
      exact List.get?_eq_none.mpr (by omega)
    have hlast : pyListGet pts (-1) = pts.get? (pts.length - 1) :=
      pyListGet_neg_one pts hne
    have hgetlast : pts.get? (pts.length - 1) =
        Option.some (pts.get ⟨pts.length - 1, by omega⟩) := List.get?_eq_get _
    have hL : a.get_anchor_point g i =
        Except.ok (pts.get ⟨pts.length - 1, by omega⟩) := by
      simp only [AnimAnchors.get_anchor_point, hg, hnone, hlast, hgetlast]
    have hR : a.get_anchor_point g ((pts.length : Int) - 1) =
        Except.ok (pts.get ⟨pts.length - 1, by omega⟩) := by
      have hnn : pyListGet pts ((pts.length : Int) - 1) =
          pts.get? (pts.length - 1) := by
        rw [pyListGet_nonneg pts _ (by omega)]
        congr 1
        omega
      simp only [AnimAnchors.get_anchor_point, hg, hnn, hgetlast]
    exact ⟨pts.get ⟨pts.length - 1, by omega⟩, hgetlast, hL, hL.trans hR.symm⟩
  · intro h0 hlt
    have hidx : i.toNat < pts.length := by omega
    have hsome : pts.get? i.toNat = Option.some (pts.get ⟨i.toNat, hidx⟩) :=
      List.get?_eq_get hidx
    refine ⟨pts.get ⟨i.toNat, hidx⟩, hsome, ?_⟩
    simp only [AnimAnchors.get_anchor_point, hg, pyListGet_nonneg pts i h0, hsome]

/-- Claim C4 witness: the docstring table, frame index 7 beyond the
three entries gives the last coordinate (2,2), and frame index 1 gives
the stored (1,3). -/
theorem C4_anchor_extrapolation_witness :
    anchors0.get_anchor_point "head_anchor" 7 = Except.ok ⟨2, 2⟩
    ∧ anchors0.get_anchor_point "head_anchor" 7 =
        anchors0.get_anchor_point "head_anchor" ((anchorPts0.length : Int) - 1)
    ∧ anchors0.get_anchor_point "head_anchor" 1 = Except.ok ⟨1, 3⟩ := by
  have h7 := (C4_anchor_extrapolation anchors0 "head_anchor" anchorPts0 rfl
    (by decide) 7).1 (by decide)
  have h1 := (C4_anchor_extrapolation anchors0 "head_anchor" anchorPts0 rfl
    (by decide) 1).2 (by decide) (by decide)
  obtain ⟨p, hp, hres, heq⟩ := h7
  obtain ⟨q, hq, hres1⟩ := h1
  have hp2 : p = ⟨2, 2⟩ := by
    have hv : anchorPts0.get? (anchorPts0.length - 1) =
        Option.some ⟨2, 2⟩ := by decide
    exact Option.some.inj (hp.symm.trans hv)
  have hq2 : q = ⟨1, 3⟩ := by
    have hv : anchorPts0.get? (1 : Int).toNat = Option.some ⟨1, 3⟩ := by decide
    exact Option.some.inj (hq.symm.trans hv)
  exact ⟨hp2 ▸ hres, heq, hq2 ▸ hres1⟩

/-- Claim C5 (confirmed). A group label matching none of the stored
groups makes get_anchor_point fail with KeyError (the UnknownAnchorGroup
condition of the spec) for every frame index; the method performs no
assignment, so the pure embedding leaves the table unchanged by
construction. -/
theorem C5_unknown_group_error (a : AnimAnchors) (g : String)
    (hg : ∀ pr ∈ a.anchor_points, pr.1 ≠ g) (i : Int) :
    a.get_anchor_point g i = Except.error PyErr.keyError := by
  have h : a.anchor_points.lookup g = Option.none :=
    lookup_eq_none_of_keys_ne a.anchor_points g hg
  simp only [AnimAnchors.get_anchor_point, h]

/-- Claim C5 witness: the docstring table has no hat_anchor group, so
the lookup fails at frame index 0 and at frame index 5. -/
theorem C5_unknown_group_error_witness :
    anchors0.get_anchor_point "hat_anchor" 0 = Except.error PyErr.keyError
    ∧ anchors0.get_anchor_point "hat_anchor" 5 = Except.error PyErr.keyError :=
  ⟨C5_unknown_group_error anchors0 "hat_anchor" (by decide) 0,
   C5_unknown_group_error anchors0 "hat_anchor" (by decide) 5⟩

/-- Claim C10 (confirmed). For a group with a nonempty coordinate list
of length n, a negative frame index between minus n and minus one
returns the coordinate at position n plus the index, counting from the
end; a frame index below minus n raises IndexError internally and the
handler returns the last stored coordinate. -/
theorem C10_negative_index_lookup (a : AnimAnchors) (g : String)
    (pts : List AnchorPoint) (hg : a.anchor_points.lookup g = Option.some pts)
    (hne : pts ≠ []) (i : Int) :
    (-(pts.length : Int) ≤ i → i < 0 →
      ∃ p, pts.get? (i + (pts.length : Int)).toNat = Option.some p
        ∧ a.get_anchor_point g i = Except.ok p)
    ∧ (i < -(pts.length : Int) →
      ∃ p, pts.get? (pts.length - 1) = Option.some p
        ∧ a.get_anchor_point g i = Except.ok p) := by
  have hlen : 0 < pts.length := List.length_pos.mpr hne
  constructor
  · intro h1 h2
    have hj : (i + (pts.length : Int)).toNat < pts.length := by omega
    have hpy : pyListGet pts i = pts.get? (i + (pts.length : Int)).toNat :=
      pyListGet_neg_in pts i h2 (by omega)
    have hsome : pts.get? (i + (pts.length : Int)).toNat =
        Option.some (pts.get ⟨(i + (pts.length : Int)).toNat, hj⟩) :=
      List.get?_eq_get hj
    refine ⟨pts.get ⟨(i + (pts.length : Int)).toNat, hj⟩, hsome, ?_⟩
    simp only [AnimAnchors.get_anchor_point, hg, hpy, hsome]
  · intro h1
    have hnone : pyListGet pts i = Option.none :=
      pyListGet_neg_out pts i (by omega) (by omega)
    have hlast : pyListGet pts (-1) = pts.get? (pts.length - 1) :=
      pyListGet_neg_one pts hne
    have hget : pts.get? (pts.length - 1) =
        Option.some (pts.get ⟨pts.length - 1, by omega⟩) := List.get?_eq_get _
    refine ⟨pts.get ⟨pts.length - 1, by omega⟩, hget, ?_⟩
    simp only [AnimAnchors.get_anchor_point, hg, hnone, hlast, hget]

/-- Claim C10 witness: on the three entry docstring table, index -2
returns the coordinate stored at position 1 and index -9 returns the
last coordinate. -/
theorem C10_negative_index_lookup_witness :
    anchors0.get_anchor_point "head_anchor" (-2) = Except.ok ⟨1, 3⟩
    ∧ anchors0.get_anchor_point "head_anchor" (-9) = Except.ok ⟨2, 2⟩ := by
  have h2 := (C10_negative_index_lookup anchors0 "head_anchor" anchorPts0 rfl
    (by decide) (-2)).1 (by decide) (by decide)
  have h9 := (C10_negative_index_lookup anchors0 "head_anchor" anchorPts0 rfl
    (by decide) (-9)).2 (by decide)
  obtain ⟨p, hp, hres⟩ := h2
  obtain ⟨q, hq, hres9⟩ := h9
  have hp2 : p = ⟨1, 3⟩ := by
    have hv : anchorPts0.get? ((-2 : Int) + (anchorPts0.length : Int)).toNat =
        Option.some ⟨1, 3⟩ := by decide
    exact Option.some.inj (hp.symm.trans hv)
  have hq2 : q = ⟨2, 2⟩ := by
    have hv : anchorPts0.get? (anchorPts0.length - 1) =
        Option.some ⟨2, 2⟩ := by decide
    exact Option.some.inj (hq.symm.trans hv)
  exact ⟨hp2 ▸ hres, hq2 ▸ hres9⟩

/-- Claim C1 (code_bug evidence). The claim says each child position is
parent position plus parent frame anchor minus the child head_anchor at
the CHILD own active frame index, making the two anchors coincide in
world space. At the failing input the parent is on frame 1 with anchor
(5,5) at position (10,10), while the child is on its own frame 0 with
anchor (1,1): blit instead looks the child anchor up at the parent
frame index 1, obtaining (9,9), and draws the child at (6,6), so the
claimed coincidence (6,6) + (1,1) = (10,10) + (5,5) fails. -/
theorem C1_child_anchor_uses_parent_frame_index :
    Walkabout.blit c1Parent (0, 0) =
      Except.ok { selfDraw := (10, 10), childDraws := [(6, 6)] }
    ∧ findStartTime c1ChildAnim.startTimes c1ChildAnim.elapsed = 0
    ∧ c1ChildAnchors.get_anchor_point "head_anchor" 0 = Except.ok ⟨1, 1⟩
    ∧ c1ParentAnchors.get_anchor_point "head_anchor" 1 = Except.ok ⟨5, 5⟩
    ∧ ((6 : Int) + 1, (6 : Int) + 1) ≠ ((10 : Int) + 5, (10 : Int) + 5) :=
  ⟨rfl, rfl, rfl, rfl, by decide⟩

/-- Claim C6 counterexample. A set built from only the only.gif asset
stores its single animation under (stand, south); resolving the pair
(walk, north) on it raises KeyError instead of returning that
animation, refuting the claimed query remapping. -/
theorem C6_counterexample :
    Walkabout.update_animations freshWalkabout [onlyFile] =
      Except.ok (onlyLoaded onlyAnim)
    ∧ Walkabout.current_animation
        { onlyLoaded onlyAnim with
            action := Action.walk, direction := Direction.north } =
      Except.error PyErr.keyError
    ∧ Walkabout.current_animation
        { onlyLoaded onlyAnim with
            action := Action.walk, direction := Direction.north } ≠
      Except.ok onlyAnim :=
  ⟨rfl, rfl, fun h => Except.noConfusion h⟩

/-- Claim C6 as amended. The remap of the reserved only name to
(stand, south) happens at load time: update_animations on a bundle
holding only only.gif stores the single animation under (stand, south),
where current_animation returns it; a query for any other pair, such as
(walk, north), raises KeyError, with no query time remapping. -/
theorem C6_only_remap_is_load_time (an : PygAnimation) :
    Walkabout.update_animations freshWalkabout [⟨"only", an, Option.none⟩] =
      Except.ok (onlyLoaded an)
    ∧ Walkabout.current_animation (onlyLoaded an) = Except.ok an
    ∧ Walkabout.current_animation
        { onlyLoaded an with
            action := Action.walk, direction := Direction.north } =
      Except.error PyErr.keyError :=
  ⟨rfl, rfl, rfl⟩

/-- Claim C7 counterexample. A Walkabout whose anchor table holds no
entry for the active (stand, south) pair has anchor data absent for the
active animation, yet blit raises KeyError instead of skipping the
composition without error. -/
theorem C7_counterexample :
    nestedLookup c7Table Action.stand Direction.south = Option.none
    ∧ Walkabout.blit c7MissingPairState (0, 0) = Except.error PyErr.keyError :=
  ⟨rfl, rfl⟩

/-- Claim C7 as amended. The skip happens exactly when the whole
animation_anchors attribute is None: then blit resolves the current
animation, draws the parent and returns with no child composition, so
every child position is untouched; when the attribute holds a table
that merely lacks the active pair, blit raises KeyError instead. -/
theorem C7_none_attribute_skips_children (w : Walkabout) (offset : Int × Int)
    (an : PygAnimation)
    (ha : Walkabout.current_animation w = Except.ok an)
    (hn : w.animation_anchors = AnchorsAttr.pyNone) :
    Walkabout.blit w offset =
      Except.ok { selfDraw := (w.topleft_float.1 - offset.1,
                              w.topleft_float.2 - offset.2),
                  childDraws := [] } := by
  simp only [Walkabout.blit, ha, hn]

/-- Claim C7 witness: the None attribute state with one child draws the
parent at the offset position and composes no child. -/
theorem C7_none_attribute_skips_children_witness :
    Walkabout.blit c7NoneState (3, 4) =
      Except.ok { selfDraw := (-3, -4), childDraws := [] } :=
  C7_none_attribute_skips_children c7NoneState (3, 4) c7Anim rfl rfl

/-- Claim C9 (confirmed). Processing any .gif file without a like named
.ini sidecar, whatever the prior attribute state, succeeds and assigns
the whole animation_anchors attribute None; concretely, processing
walk_north with its sidecar from the table state stores the parsed
anchors, processing the sidecar bearing file first and the sidecar free
file second ends with the attribute None, the parsed table discarded,
while the reverse order raises TypeError, so the final anchor state
depends on the processing order of the files. -/
theorem C9_no_sidecar_resets_anchors :
    (∀ (w : Walkabout) (f : SpriteFile) (a : Action) (d : Direction),
        decodeBaseName f.baseName = Except.ok (a, d) →
        f.iniAnchors = Option.none →
        Walkabout.processSpriteFile w f =
          Except.ok { w with
            animations := nestedSet w.animations a d f.animation,
            animation_anchors := AnchorsAttr.pyNone })
    ∧ Walkabout.processSpriteFile c9Init c9FileWithIni =
        Except.ok { c9Init with
          animations := [(Action.walk, [(Direction.north, c9AnimA)])],
          animation_anchors :=
            AnchorsAttr.table [(Action.walk, [(Direction.north, c9Anchors)])] }
    ∧ Walkabout.update_animations c9Init [c9FileWithIni, c9FileNoIni] =
        Except.ok c9AfterAB
    ∧ Walkabout.update_animations c9Init [c9FileNoIni, c9FileWithIni] =
        Except.error PyErr.typeError := by
  refine ⟨?_, by rfl, by rfl, by rfl⟩
  intro w f a d hdec hini
  simp only [Walkabout.processSpriteFile, hdec, hini]

/-- Claim C9 witness: processing the sidecar free stand_south file from
the table state yields the None attribute. -/
theorem C9_no_sidecar_resets_anchors_witness :
    Walkabout.processSpriteFile c9Init c9FileNoIni =
      Except.ok { c9Init with
        animations := [(Action.stand, [(Direction.south, c9AnimB)])],
        animation_anchors := AnchorsAttr.pyNone } := by
  have h := C9_no_sidecar_resets_anchors.1 c9Init c9FileNoIni
    Action.stand Direction.south (by rfl) rfl
  exact h.trans (by rfl)
